import Mathlib

/-
Shallow embedding of the Soundux audio playback engine
(src/src/helper/audio/audio.cpp, namespace Soundux::Objects).

Pointers (ma_device*, ma_decoder*) are modelled as natural-number handles.
The engine state carries the registries that the C++ object and its
collaborators hold: the named device collection, the playing-sound
registry keyed by stream handle, the set of live (opened, not yet
released) decoder and device objects, and the deferred task queue.
Floating-point millisecond computations, which the source performs with
doubles and a truncating cast, are modelled as exact natural-number
floor division (a / b * c becomes a * c / b in Nat).
External outcomes (ma_decoder_init_file, ma_device_init,
ma_device_start succeeding or failing) enter as Boolean oracles.
-/

namespace Soundux

/-- A sound to be played. The source stores a path; the PCM length and
sample rate are the values the decoding capability reports for the file
(`ma_decoder_get_length_in_pcm_frames`, `decoder->outputSampleRate`). -/
structure Sound where
  path : String
  lengthInPcmFrames : Nat
  sampleRate : Nat
  deriving Repr, DecidableEq

/-- An output device entry of the device collection, as built by
`Audio::getAudioDevices` and stored in `Audio::devices`. The opaque
`raw` platform descriptor is not modelled. Volume is a float in the
source, modelled as an exact rational. -/
structure AudioDevice where
  name : String
  isDefault : Bool := false
  volume : Rat := 1
  deriving Repr, DecidableEq

/-- One playing-sound registry entry (struct `PlayingSound`; its header
is not under src/, so the fields and their zero defaults are taken from
the uses in audio.cpp and the data model of the spec). -/
structure PlayingSound where
  sound : Sound
  device : AudioDevice
  rawDevice : Nat
  rawDecoder : Nat
  length : Nat
  sampleRate : Nat
  lengthInMs : Nat
  readFrames : Nat := 0
  readInMs : Nat := 0
  buffer : Nat := 0
  id : Nat := 0
  paused : Bool := false
  repeat' : Bool := false
  shouldSeek : Bool := false
  seekTo : Nat := 0
  deriving Repr, DecidableEq

/-- Modelled from the spec: the decoding capability is an external
collaborator that, once opened, yields PCM frames sequentially and can
seek; it has a known total length. A read produces
`min requested (length - cursor)` frames and advances the cursor. -/
structure MaDecoder where
  lengthInPcmFrames : Nat
  cursor : Nat := 0
  deriving Repr, DecidableEq

/-- A live `ma_device` object: the playback name the platform resolved
for it, the master volume factor the callback sets each buffer, whether
the stream is started, and its `pUserData` (the decoder handle that
`Audio::play` stores in the device config). -/
structure MaDeviceState where
  playbackName : String
  masterVolumeFactor : Rat := 1
  running : Bool := false
  userData : Option Nat := none
  deriving Repr, DecidableEq

/-- Events delivered to the notification sink (`Globals::gGui`). -/
inductive SinkEvent where
  | played (s : PlayingSound)
  | progressed (s : PlayingSound)
  | finished (s : PlayingSound)
  deriving Repr, DecidableEq

def SinkEvent.isProgressed : SinkEvent → Bool
  | .progressed _ => true
  | _ => false

/-- Observable effectful actions, recorded so that the order of
teardown versus registry removal is visible. -/
inductive Action where
  | uninitDevice (h : Nat)
  | uninitDecoder (h : Nat)
  | eraseEntry (h : Nat)
  | stopDevice (h : Nat)
  | startDevice (h : Nat)
  deriving Repr, DecidableEq

section AList

variable {K V : Type} [DecidableEq K]

/-- Lookup in an association list (the maps of the engine). -/
def findKey : List (K × V) → K → Option V
  | [], _ => none
  | (k', v) :: t, k => if k' = k then some v else findKey t k

/-- Remove every entry with the given key. -/
def eraseKey (l : List (K × V)) (k : K) : List (K × V) :=
  l.filter (fun p => p.1 ≠ k)

/-- Apply `f` to the value of every entry with the given key. -/
def updateKey (l : List (K × V)) (k : K) (f : V → V) : List (K × V) :=
  l.map (fun p => if p.1 = k then (p.1, f p.2) else p)

end AList

/-- The whole engine state: the `Audio` object together with the live
platform objects and the deferred task queue of its collaborators.
`allowOverlapping` is the `Globals::gSettings.allowOverlapping` flag,
`queue` holds the stream-handle keys of pending deferred finish tasks
(`Globals::gQueue`). -/
structure AudioState where
  devices : List (String × AudioDevice)
  defaultOutputDevice : Option String
  playingSounds : List (Nat × PlayingSound)
  playingSoundIdCounter : Nat
  decoders : List (Nat × MaDecoder)
  maDevices : List (Nat × MaDeviceState)
  queue : List Nat
  allowOverlapping : Bool
  nextHandle : Nat
  deriving Repr, DecidableEq

/-- Modelled from the spec: `Globals::gQueue.push_unique` (the task
queue implementation is not under src/) — a deferred, de-duplicating
task queue keyed by the stream handle, so at most one pending finish
task exists per stream at a time. Tasks here are always
`onFinished device`, so the queue stores the keys. -/
def push_unique (key : Nat) (q : List Nat) : List Nat :=
  if q.contains key then q else q ++ [key]

/-- `Audio::getVolume`: stored volume of a known device, else 1. -/
def getVolume (st : AudioState) (name : String) : Rat :=
  match findKey st.devices name with
  | some d => d.volume
  | none => 1

/-- `Audio::getPlayingSound`: registry lookup by stream handle. -/
def getPlayingSound (st : AudioState) (h : Nat) : Option PlayingSound :=
  findKey st.playingSounds h

/-- The `find_if` by session id used by stop/pause/resume/seek. -/
def findById (st : AudioState) (soundId : Nat) : Option (Nat × PlayingSound) :=
  st.playingSounds.find? (fun p => p.2.id = soundId)

/-- The body of the `Audio::stopAll` loop: release the sound's device
and the decoder found through the device's pUserData. -/
def stopAllStep (acc : AudioState) (p : Nat × PlayingSound) : AudioState :=
  let dec? := (findKey acc.maDevices p.2.rawDevice).bind (fun d => d.userData)
  let acc := { acc with maDevices := eraseKey acc.maDevices p.2.rawDevice }
  match dec? with
  | some dh => { acc with decoders := eraseKey acc.decoders dh }
  | none => acc

/-- `Audio::stopAll`: for each registered sound, release its device and
decoder, then clear the registry. -/
def stopAll (st : AudioState) : AudioState :=
  let st' := st.playingSounds.foldl stopAllStep st
  { st' with playingSounds := [] }

inductive PlayResult where
  | ok (ps : PlayingSound)
  | decodeError
  | deviceError
  | undefinedDefaultDevice
  deriving Repr, DecidableEq

/-- `Audio::play`. The three Booleans are the outcomes of
`ma_decoder_init_file`, `ma_device_init` and `ma_device_start`;
`resolvedName` is the playback name the platform assigns to the opened
stream. Returns the result, the new state, and the sink events emitted
synchronously on the calling thread. The branch that reads
`*defaultOutputDevice` with no default device set has no defined
behaviour in the source (null dereference); it is modelled by the
explicit `undefinedDefaultDevice` outcome. Note that the source does
not release the decoder when `ma_device_init` fails; the model keeps
that behaviour. -/
def play (st0 : AudioState) (decodeOk deviceInitOk deviceStartOk : Bool)
    (resolvedName : String) (sound : Sound)
    (playbackDevice : Option AudioDevice) :
    PlayResult × AudioState × List SinkEvent :=
  let st := if st0.allowOverlapping then st0 else stopAll st0
  if decodeOk = false then
    (.decodeError, st, [])
  else
    let dh := st.nextHandle
    let st := { st with
      nextHandle := st.nextHandle + 1,
      decoders := st.decoders ++ [(dh, { lengthInPcmFrames := sound.lengthInPcmFrames, cursor := 0 })] }
    if deviceInitOk = false then
      (.deviceError, st, [])
    else
      let devh := st.nextHandle
      let st := { st with
        nextHandle := st.nextHandle + 1,
        maDevices := st.maDevices ++
          [(devh, ({ playbackName := resolvedName, masterVolumeFactor := 1,
                     running := false, userData := some dh } : MaDeviceState))] }
      if deviceStartOk = false then
        let st := { st with maDevices := eraseKey st.maDevices devh,
                            decoders := eraseKey st.decoders dh }
        (.deviceError, st, [])
      else
        let st := { st with maDevices := (updateKey st.maDevices devh
          (fun d => { d with running := true })) }
        let lengthInMs := sound.lengthInPcmFrames * 1000 / sound.sampleRate
        let newId := st.playingSoundIdCounter + 1
        let st := { st with playingSoundIdCounter := newId }
        let dev? : Option AudioDevice :=
          match playbackDevice with
          | some d => some d
          | none =>
            match st.defaultOutputDevice with
            | some nm => findKey st.devices nm
            | none => none
        match dev? with
        | none => (.undefinedDefaultDevice, st, [])
        | some dev =>
          let pSound : PlayingSound := {
            sound := sound, device := dev, rawDevice := devh, rawDecoder := dh,
            length := sound.lengthInPcmFrames, sampleRate := sound.sampleRate,
            lengthInMs := lengthInMs, id := newId }
          let st := { st with playingSounds := st.playingSounds ++ [(devh, pSound)] }
          (.ok pSound, st, [.played pSound])

/-- `Audio::stop`: locate by id; if found, release the device and the
decoder reached through the device's pUserData, then erase the registry
entry; report whether found. The action list records the order of the
effectful steps. -/
def stop (st : AudioState) (soundId : Nat) : Bool × AudioState × List Action :=
  match findById st soundId with
  | some (h, ps) =>
    let dec? := (findKey st.maDevices ps.rawDevice).bind (fun d => d.userData)
    let st := { st with maDevices := eraseKey st.maDevices ps.rawDevice }
    let (st, acts) :=
      match dec? with
      | some dh =>
        ({ st with decoders := eraseKey st.decoders dh },
         [Action.uninitDevice ps.rawDevice, Action.uninitDecoder dh])
      | none => (st, [Action.uninitDevice ps.rawDevice])
    let st := { st with playingSounds := eraseKey st.playingSounds h }
    (true, st, acts ++ [Action.eraseEntry h])
  | none => (false, st, [])

/-- `Audio::pause`: if found and not already paused, stop the hardware
stream and set the paused flag; return the session snapshot (taken
after the mutation, as the source returns `sound->second`). -/
def pause (st : AudioState) (soundId : Nat) :
    Option PlayingSound × AudioState × List Action :=
  match findById st soundId with
  | some (h, ps) =>
    if ps.paused = false then
      let st := { st with
        maDevices := updateKey st.maDevices ps.rawDevice (fun d => { d with running := false }),
        playingSounds := updateKey st.playingSounds h (fun s => { s with paused := true }) }
      (some { ps with paused := true }, st, [Action.stopDevice ps.rawDevice])
    else
      (some ps, st, [])
  | none => (none, st, [])

/-- `Audio::resume`: symmetric to pause. -/
def resume (st : AudioState) (soundId : Nat) :
    Option PlayingSound × AudioState × List Action :=
  match findById st soundId with
  | some (h, ps) =>
    if ps.paused = true then
      let st := { st with
        maDevices := updateKey st.maDevices ps.rawDevice (fun d => { d with running := true }),
        playingSounds := updateKey st.playingSounds h (fun s => { s with paused := false }) }
      (some { ps with paused := false }, st, [Action.startDevice ps.rawDevice])
    else
      (some ps, st, [])
  | none => (none, st, [])

/-- `Audio::seek`: store the pending target
`position / lengthInMs * length` (double arithmetic with a truncating
cast in the source; exact floor division here) and the shouldSeek flag
on the session; return a snapshot whose read position already reflects
the target. No decoder or device object is touched. -/
def seek (st : AudioState) (soundId : Nat) (position : Nat) :
    Option PlayingSound × AudioState :=
  match findById st soundId with
  | some (h, ps) =>
    let target := position * ps.length / ps.lengthInMs
    let st := { st with playingSounds := (updateKey st.playingSounds h
      (fun s => { s with seekTo := target, shouldSeek := true })) }
    let rtn : PlayingSound := { ps with
      seekTo := target, shouldSeek := true,
      readFrames := target,
      readInMs := target * ps.lengthInMs / ps.length }
    (some rtn, st)
  | none => (none, st)

/-- `Audio::onFinished` (run by the deferred task): if the stream
handle is still registered, release the device and decoder, notify the
sink, and erase the entry; otherwise only log. -/
def onFinished (st : AudioState) (h : Nat) : AudioState × List SinkEvent :=
  match findKey st.playingSounds h with
  | some sound =>
    let st := { st with maDevices := eraseKey st.maDevices sound.rawDevice,
                        decoders := eraseKey st.decoders sound.rawDecoder }
    ({ st with playingSounds := eraseKey st.playingSounds h }, [.finished sound])
  | none => (st, [])

/-- `Audio::onSoundProgressed`: accumulate frames; when the
accumulation buffer exceeds half the sample rate, derive `readInMs`,
notify the sink, and reset the buffer. The emitted snapshot is the
value at the moment of the sink call (buffer not yet reset). -/
def onSoundProgressed (st : AudioState) (h : Nat) (frames : Nat) :
    AudioState × List SinkEvent :=
  match findKey st.playingSounds h with
  | some sound =>
    let s1 := { sound with readFrames := sound.readFrames + frames,
                           buffer := sound.buffer + frames }
    if s1.sampleRate / 2 < s1.buffer then
      let s2 := { s1 with readInMs := s1.readFrames * s1.lengthInMs / s1.length }
      ({ st with playingSounds := updateKey st.playingSounds h (fun _ => { s2 with buffer := 0 }) },
       [.progressed s2])
    else
      ({ st with playingSounds := updateKey st.playingSounds h (fun _ => s1) }, [])
  | none => (st, [])

/-- `Audio::onSoundSeeked`: clear the pending-seek flag and set the
read position to the completed target. -/
def onSoundSeeked (st : AudioState) (h : Nat) (frame : Nat) : AudioState :=
  match findKey st.playingSounds h with
  | some sound =>
    { st with playingSounds := (updateKey st.playingSounds h
      (fun _ => { sound with shouldSeek := false, readFrames := frame,
                             readInMs := frame * sound.lengthInMs / sound.length })) }
  | none => st

/-- `Audio::data_callback`: the real-time callback. Resolves the
decoder through the device's pUserData (no-op when absent), refreshes
the master volume factor, reads up to `frameCount` frames, executes a
pending seek, reports progress when frames were produced, and on end of
stream either rewinds (repeat) or schedules a deferred finish task
keyed by the stream handle. The returned event list contains exactly
the sink events emitted synchronously from this callback invocation. -/
def data_callback (st0 : AudioState) (h : Nat) (frameCount : Nat) :
    AudioState × List SinkEvent :=
  match findKey st0.maDevices h with
  | none => (st0, [])
  | some md =>
    match md.userData with
    | none => (st0, [])
    | some dh =>
      let st := { st0 with maDevices := (updateKey st0.maDevices h
        (fun d => { d with masterVolumeFactor := getVolume st0 md.playbackName })) }
      match findKey st.decoders dh with
      | none => (st, [])
      | some dec =>
        let readFrames := min frameCount (dec.lengthInPcmFrames - dec.cursor)
        let st := { st with decoders := (updateKey st.decoders dh
          (fun d => { d with cursor := d.cursor + readFrames })) }
        let sound := getPlayingSound st h
        let st :=
          match sound with
          | some s =>
            if s.shouldSeek then
              let st := { st with decoders := (updateKey st.decoders dh
                (fun d => { d with cursor := s.seekTo })) }
              onSoundSeeked st h s.seekTo
            else st
          | none => st
        let pr := if 0 < readFrames then onSoundProgressed st h readFrames else (st, [])
        let st := pr.1
        let emitted := pr.2
        let st :=
          if readFrames = 0 then
            match sound with
            | some s =>
              if s.repeat' then
                { st with decoders := updateKey st.decoders dh (fun d => { d with cursor := 0 }) }
              else
                { st with queue := push_unique h st.queue }
            | none => { st with queue := push_unique h st.queue }
          else st
        (st, emitted)

/-- `Audio::getAudioDevices`: the platform query is external; the two
Booleans are the outcomes of `ma_context_init` and
`ma_context_get_devices`, `names` the enumerated playback device names
and `defaultName` the name resolved from the throwaway default stream.
Failure of either step yields the empty list. -/
def getAudioDevices (contextOk getDevicesOk : Bool)
    (names : List String) (defaultName : String) : List AudioDevice :=
  if contextOk = false then []
  else if getDevicesOk = false then []
  else names.map (fun n => { name := n, volume := 1, isDefault := n = defaultName })

/-- The body of the constructor's first loop: insert the enumerated
device (`std::map::insert` keeps an existing entry) and point
`defaultOutputDevice` at it when it is marked default. -/
def initInsertStep (acc : AudioState) (d : AudioDevice) : AudioState :=
  let acc := if (findKey acc.devices d.name).isSome then acc
             else { acc with devices := acc.devices ++ [(d.name, d)] }
  if d.isDefault then { acc with defaultOutputDevice := some d.name } else acc

/-- The body of the constructor's second loop: restore a persisted
per-device volume when the device name is present. -/
def initVolumeStep (acc : AudioState) (p : String × Rat) : AudioState :=
  if (findKey acc.devices p.1).isSome then
    { acc with devices := (updateKey acc.devices p.1 (fun d => { d with volume := p.2 })) }
  else acc

/-- The `Audio::Audio` constructor: insert each enumerated device,
point `defaultOutputDevice` at a device marked default, then restore
volumes from the settings for names that are present. -/
def Audio.init (deviceList : List AudioDevice)
    (deviceSettings : List (String × Rat)) (allowOverlapping : Bool) : AudioState :=
  let st : AudioState := {
    devices := [], defaultOutputDevice := none, playingSounds := [],
    playingSoundIdCounter := 0, decoders := [], maDevices := [], queue := [],
    allowOverlapping := allowOverlapping, nextHandle := 100 }
  let st := deviceList.foldl initInsertStep st
  deviceSettings.foldl initVolumeStep st

/-! Concrete devices, sounds and states used by the example theorems. -/

def exDevice : AudioDevice := { name := "speakers", isDefault := true, volume := 1 }

def exSound : Sound := { path := "a.mp3", lengthInPcmFrames := 4, sampleRate := 2 }

def exEmpty : AudioState := Audio.init [exDevice] [] true

/-- A state with one playing session (id 1, stream handle 101, decoder
handle 100), produced by a successful play call. -/
def exPlaying : AudioState := (play exEmpty true true true "speakers" exSound none).2.1

/-- The session value registered in `exPlaying`. -/
def exPlayingSound : PlayingSound :=
  { sound := exSound, device := exDevice, rawDevice := 101, rawDecoder := 100,
    length := 4, sampleRate := 2, lengthInMs := 2000, id := 1 }

/-- The live device object of `exPlaying`. -/
def exMaDevice : MaDeviceState :=
  { playbackName := "speakers", masterVolumeFactor := 1, running := true, userData := some 100 }

/-- `exPlaying` with overlapping playback disabled. -/
def exPlayingNoOverlap : AudioState := { exPlaying with allowOverlapping := false }

/-- A session at end of stream with the repeat flag set. -/
def exRepeatSound : PlayingSound :=
  { exPlayingSound with readFrames := 4, readInMs := 2000, repeat' := true }

def exRepeatState : AudioState :=
  { exPlaying with
    playingSounds := [(101, exRepeatSound)],
    decoders := [(100, { lengthInPcmFrames := 4, cursor := 4 })] }

/-- A session at end of stream with the repeat flag clear. -/
def exEosSound : PlayingSound :=
  { exPlayingSound with readFrames := 4, readInMs := 2000 }

def exEosState : AudioState :=
  { exPlaying with
    playingSounds := [(101, exEosSound)],
    decoders := [(100, { lengthInPcmFrames := 4, cursor := 4 })] }

/-- The 10,000 ms / 441,000 frame session of the seek example. -/
def exSeekSound : PlayingSound :=
  { sound := { path := "b.mp3", lengthInPcmFrames := 441000, sampleRate := 44100 },
    device := exDevice, rawDevice := 101, rawDecoder := 100,
    length := 441000, sampleRate := 44100, lengthInMs := 10000, id := 1 }

def exSeekState : AudioState :=
  { exPlaying with
    playingSounds := [(101, exSeekSound)],
    decoders := [(100, { lengthInPcmFrames := 441000, cursor := 0 })] }

/-- A device collection with a stored volume of 2 for "speakers". -/
def exVolState : AudioState := Audio.init [exDevice] [("speakers", 2)] true

/-- The engine constructed after a failed device enumeration. -/
def exNoDevices : AudioState := Audio.init [] [] true

/-- Conclusion of the corrected C3 claim: stopping the session found
under id `i` (stream handle `h`, decoder `dh`) reports success, its
recorded effect order is teardown of the device and decoder followed by
removal of the registry entry, and once `stop` has returned, a deferred
finish task for `h` finds no registry entry and produces no finish
notification. -/
def stopCancelsDeferredFinish (st : AudioState) (i h dh : Nat) (ps : PlayingSound) : Prop :=
  (stop st i).1 = true ∧
  (stop st i).2.2 =
    [Action.uninitDevice ps.rawDevice, Action.uninitDecoder dh, Action.eraseEntry h] ∧
  findKey (stop st i).2.1.playingSounds h = none ∧
  onFinished (stop st i).2.1 h = ((stop st i).2.1, [])

/-- Conclusion of C6: `seek` stores the pending target frame computed
as positionMs / lengthInMs * length on the session together with the
shouldSeek flag, touches no decoder or device object, and returns a
snapshot whose readFrames is the target and whose derived readInMs
matches positionMs within rounding (at most one millisecond below). -/
def seekStoresPendingTarget (st : AudioState) (i pos h : Nat) (ps : PlayingSound) : Prop :=
  ∃ rtn st', seek st i pos = (some rtn, st') ∧
    rtn.seekTo = pos * ps.length / ps.lengthInMs ∧
    rtn.shouldSeek = true ∧
    rtn.readFrames = rtn.seekTo ∧
    rtn.readInMs = rtn.seekTo * ps.lengthInMs / ps.length ∧
    rtn.readInMs ≤ pos ∧ pos ≤ rtn.readInMs + 1 ∧
    st'.decoders = st.decoders ∧
    st'.maDevices = st.maDevices ∧
    st'.queue = st.queue ∧
    st'.devices = st.devices ∧
    st'.playingSounds = updateKey st.playingSounds h
      (fun s => { s with seekTo := pos * ps.length / ps.lengthInMs, shouldSeek := true })

/-- Conclusion of C7: pausing then resuming the session found under id
`i` stops and restarts the hardware stream and restores the paused flag
to false without altering readFrames or readInMs as they stood at the
moment of pause. -/
def pauseResumeRoundtrip (st : AudioState) (i h : Nat) (ps : PlayingSound)
    (md : MaDeviceState) : Prop :=
  ∃ st1 st2,
    pause st i = (some { ps with paused := true }, st1, [Action.stopDevice ps.rawDevice]) ∧
    findById st1 i = some (h, { ps with paused := true }) ∧
    findKey st1.maDevices ps.rawDevice = some { md with running := false } ∧
    resume st1 i = (some { ps with paused := false }, st2, [Action.startDevice ps.rawDevice]) ∧
    findById st2 i = some (h, { ps with paused := false }) ∧
    findKey st2.maDevices ps.rawDevice = some { md with running := true } ∧
    ({ ps with paused := false } : PlayingSound).readFrames = ps.readFrames ∧
    ({ ps with paused := false } : PlayingSound).readInMs = ps.readInMs

/-- The registry invariant claimed by C4: every registered session has
readFrames bounded by its length. -/
def sessionBoundsInv (st : AudioState) : Prop :=
  ∀ p ∈ st.playingSounds, p.2.readFrames ≤ p.2.length

/-- Conclusion of the amended C4: one callback invocation on a
non-repeating session with no pending seek, whose read position agrees
with its decoder cursor, keeps readFrames in step with the decoder and
within `length`, and its readInMs is either freshly derived from
readFrames (at a throttled report point) or left unchanged (stale
between reports). -/
def callbackKeepsBounds (st : AudioState) (h fc dh : Nat) (dec : MaDecoder)
    (ps : PlayingSound) : Prop :=
  ∃ ps', findKey (data_callback st h fc).1.playingSounds h = some ps' ∧
    ps'.readFrames = dec.cursor + min fc (dec.lengthInPcmFrames - dec.cursor) ∧
    ps'.readFrames ≤ ps.length ∧
    findKey (data_callback st h fc).1.decoders dh =
      some { dec with cursor := dec.cursor + min fc (dec.lengthInPcmFrames - dec.cursor) } ∧
    (ps'.readInMs = ps'.readFrames * ps'.lengthInMs / ps'.length ∨ ps'.readInMs = ps.readInMs)

/-- Conclusion of C8: at end of stream the callback either rewinds the
decoder to frame 0 and leaves the registry untouched (repeat), or
schedules one finish task for the stream handle through the
de-duplicating `push_unique`, so that a repeated end-of-stream callback
leaves the queue unchanged and the handle is pending at most once. -/
def endOfStreamSpec (st : AudioState) (h fc dh : Nat) (dec : MaDecoder)
    (ps : PlayingSound) : Prop :=
  (ps.repeat' = true →
    findKey (data_callback st h fc).1.decoders dh = some { dec with cursor := 0 } ∧
    (data_callback st h fc).1.playingSounds = st.playingSounds ∧
    (data_callback st h fc).1.queue = st.queue) ∧
  (ps.repeat' = false →
    (data_callback st h fc).1.queue = push_unique h st.queue ∧
    (data_callback st h fc).1.playingSounds = st.playingSounds ∧
    (data_callback (data_callback st h fc).1 h fc).1.queue = push_unique h st.queue) ∧
  (∀ q, push_unique h (push_unique h q) = push_unique h q) ∧
  (∀ q, q.count h ≤ 1 → (push_unique h q).count h ≤ 1)

/-! Association-list lemmas. -/

section ALemmas

variable {K V : Type} [DecidableEq K]

theorem findKey_eraseKey_self (l : List (K × V)) (k : K) :
    findKey (eraseKey l k) k = none := by
  induction l with
  | nil => rfl
  | cons p t ih =>
    simp only [eraseKey, List.filter_cons] at *
    by_cases h : p.1 = k
    · simpa [h] using ih
    · simpa [findKey, h] using ih

theorem findKey_updateKey_self (l : List (K × V)) (k : K) (f : V → V) :
    findKey (updateKey l k f) k = (findKey l k).map f := by
  induction l with
  | nil => rfl
  | cons p t ih =>
    simp only [updateKey, List.map_cons]
    by_cases h : p.1 = k
    · rw [if_pos h]
      simp [findKey, h]
    · rw [if_neg h]
      simp only [findKey, if_neg h]
      exact ih

theorem find?_updateKey_of_id_eq (l : List (Nat × PlayingSound)) (h : Nat)
    (f : PlayingSound → PlayingSound) (i : Nat) (ps : PlayingSound)
    (hf : ∀ x, (f x).id = x.id)
    (hfind : l.find? (fun p => p.2.id = i) = some (h, ps)) :
    (updateKey l h f).find? (fun p => p.2.id = i) = some (h, f ps) := by
  induction l with
  | nil => simp at hfind
  | cons p t ih =>
    by_cases hq : p.2.id = i
    · rw [List.find?_cons_of_pos _ (by simpa using hq)] at hfind
      injection hfind with hp
      subst hp
      have hq' : ps.id = i := by simpa using hq
      show List.find? _
        ((if (h, ps).1 = h then ((h, ps).1, f (h, ps).2) else (h, ps)) :: updateKey t h f) = _
      rw [if_pos rfl]
      exact List.find?_cons_of_pos _ (by simp [hf, hq'])
    · rw [List.find?_cons_of_neg _ (by simpa using hq)] at hfind
      simp only [updateKey, List.map_cons]
      have hfalse : (decide ((if p.1 = h then (p.1, f p.2) else p).2.id = i)) = false := by
        by_cases hk : p.1 = h
        · simp [hk, hf, hq]
        · simp [hk, hq]
      simp only [List.find?, hfalse]
      exact ih hfind

end ALemmas

/-! Arithmetic lemmas for the millisecond derivations. -/

theorem nat_lt_div_succ_mul (a b : Nat) (hb : 0 < b) : a < (a / b + 1) * b := by
  have h1 := Nat.div_add_mod a b
  have h2 := Nat.mod_lt a hb
  calc a = b * (a / b) + a % b := h1.symm
    _ < b * (a / b) + b := by omega
    _ = (a / b + 1) * b := by ring

theorem derived_ms_le (p L m : Nat) (hL : 0 < L) :
    p * L / m * m / L ≤ p := by
  have h1 : p * L / m * m ≤ p * L := Nat.div_mul_le_self _ _
  calc p * L / m * m / L ≤ p * L / L := Nat.div_le_div_right h1
    _ = p := Nat.mul_div_cancel p hL

theorem le_derived_ms_succ (p L m : Nat) (hL : 0 < L) (hm : 0 < m) (hmL : m ≤ L) :
    p ≤ p * L / m * m / L + 1 := by
  have h1 : p * L < (p * L / m + 1) * m := nat_lt_div_succ_mul (p * L) m hm
  have h2 : p * L / m * m < (p * L / m * m / L + 1) * L :=
    nat_lt_div_succ_mul (p * L / m * m) L hL
  have e1 : (p * L / m + 1) * m = p * L / m * m + m := by ring
  have e2 : (p * L / m * m / L + 1) * L = p * L / m * m / L * L + L := by ring
  rw [e1] at h1
  rw [e2] at h2
  have h3 : p * L < p * L / m * m / L * L + L + L := by linarith
  have h4 : p * L < (p * L / m * m / L + 2) * L := by
    have e3 : (p * L / m * m / L + 2) * L = p * L / m * m / L * L + L + L := by ring
    omega
  have h5 : p < p * L / m * m / L + 2 := lt_of_mul_lt_mul_right h4 (Nat.zero_le L)
  omega

/-! Projection lemmas: stopAll only releases devices and decoders and
clears the registry; the constructor loops only touch the device
collection and the default-device pointer. -/

theorem stopAllStep_proj (acc : AudioState) (p : Nat × PlayingSound) :
    (stopAllStep acc p).devices = acc.devices ∧
    (stopAllStep acc p).defaultOutputDevice = acc.defaultOutputDevice ∧
    (stopAllStep acc p).allowOverlapping = acc.allowOverlapping ∧
    (stopAllStep acc p).queue = acc.queue ∧
    (stopAllStep acc p).playingSounds = acc.playingSounds ∧
    (stopAllStep acc p).playingSoundIdCounter = acc.playingSoundIdCounter ∧
    (stopAllStep acc p).nextHandle = acc.nextHandle := by
  cases hdec : (findKey acc.maDevices p.2.rawDevice).bind (fun d => d.userData) with
  | none => simp [stopAllStep, hdec]
  | some dh => simp [stopAllStep, hdec]

theorem stopAllFold_proj (l : List (Nat × PlayingSound)) (acc : AudioState) :
    (l.foldl stopAllStep acc).devices = acc.devices ∧
    (l.foldl stopAllStep acc).defaultOutputDevice = acc.defaultOutputDevice ∧
    (l.foldl stopAllStep acc).allowOverlapping = acc.allowOverlapping ∧
    (l.foldl stopAllStep acc).queue = acc.queue ∧
    (l.foldl stopAllStep acc).playingSounds = acc.playingSounds ∧
    (l.foldl stopAllStep acc).playingSoundIdCounter = acc.playingSoundIdCounter ∧
    (l.foldl stopAllStep acc).nextHandle = acc.nextHandle := by
  induction l generalizing acc with
  | nil => simp
  | cons p t ih =>
    simp only [List.foldl_cons]
    obtain ⟨a1, a2, a3, a4, a5, a6, a7⟩ := stopAllStep_proj acc p
    obtain ⟨b1, b2, b3, b4, b5, b6, b7⟩ := ih (stopAllStep acc p)
    exact ⟨b1.trans a1, b2.trans a2, b3.trans a3, b4.trans a4, b5.trans a5,
           b6.trans a6, b7.trans a7⟩

theorem stopAll_proj (st : AudioState) :
    (stopAll st).devices = st.devices ∧
    (stopAll st).defaultOutputDevice = st.defaultOutputDevice ∧
    (stopAll st).allowOverlapping = st.allowOverlapping ∧
    (stopAll st).queue = st.queue ∧
    (stopAll st).playingSounds = [] ∧
    (stopAll st).playingSoundIdCounter = st.playingSoundIdCounter ∧
    (stopAll st).nextHandle = st.nextHandle := by
  obtain ⟨a1, a2, a3, a4, _, a6, a7⟩ := stopAllFold_proj st.playingSounds st
  exact ⟨a1, a2, a3, a4, rfl, a6, a7⟩

theorem initInsertStep_default_none (acc : AudioState) (d : AudioDevice)
    (hd : d.isDefault = false) :
    (initInsertStep acc d).defaultOutputDevice = acc.defaultOutputDevice := by
  unfold initInsertStep
  by_cases hf : (findKey acc.devices d.name).isSome <;> simp [hf, hd]

theorem initInsertFold_default_none (l : List AudioDevice) (acc : AudioState)
    (hl : ∀ d ∈ l, d.isDefault = false) :
    (l.foldl initInsertStep acc).defaultOutputDevice = acc.defaultOutputDevice := by
  induction l generalizing acc with
  | nil => rfl
  | cons d t ih =>
    simp only [List.foldl_cons]
    rw [ih (initInsertStep acc d) (fun x hx => hl x (List.mem_cons_of_mem _ hx)),
        initInsertStep_default_none acc d (hl d (List.mem_cons_self _ _))]

theorem initVolumeStep_default (acc : AudioState) (p : String × Rat) :
    (initVolumeStep acc p).defaultOutputDevice = acc.defaultOutputDevice := by
  unfold initVolumeStep
  split <;> rfl

theorem initVolumeFold_default (l : List (String × Rat)) (acc : AudioState) :
    (l.foldl initVolumeStep acc).defaultOutputDevice = acc.defaultOutputDevice := by
  induction l generalizing acc with
  | nil => rfl
  | cons p t ih =>
    simp only [List.foldl_cons]
    rw [ih (initVolumeStep acc p), initVolumeStep_default acc p]

theorem audioInit_default_none (deviceList : List AudioDevice)
    (settings : List (String × Rat)) (overlap : Bool)
    (h : ∀ d ∈ deviceList, d.isDefault = false) :
    (Audio.init deviceList settings overlap).defaultOutputDevice = none := by
  unfold Audio.init
  rw [initVolumeFold_default, initInsertFold_default_none _ _ h]

/-- Every sink event the progress reporter emits is a progressed
event. -/
theorem onSoundProgressed_events (st : AudioState) (h frames : Nat) :
    ((onSoundProgressed st h frames).2).all SinkEvent.isProgressed = true := by
  unfold onSoundProgressed
  cases hs : findKey st.playingSounds h with
  | none => rfl
  | some s =>
    dsimp only
    split <;> simp [SinkEvent.isProgressed]

/-! Claim theorems. -/

/-- C9: `getVolume(deviceName)` never fails: it returns the stored
volume when the name is present in the device collection, and exactly
1.0 when the name is unknown. -/
theorem c9_theorem (st : AudioState) (name : String) :
    (findKey st.devices name = none → getVolume st name = 1) ∧
    (∀ d, findKey st.devices name = some d → getVolume st name = d.volume) := by
  refine ⟨fun h => ?_, fun d h => ?_⟩ <;> simp [getVolume, h]

/-- Witness for C9: an unregistered name yields exactly 1; a stored
volume of 2 is returned as stored. -/
theorem c9_witness :
    getVolume exVolState "unknown" = 1 ∧ getVolume exVolState "speakers" = 2 :=
  ⟨(c9_theorem exVolState "unknown").1 (by decide),
   (c9_theorem exVolState "speakers").2
     { name := "speakers", isDefault := true, volume := 2 } (by decide)⟩

/-- C1, counterexample: with overlapping playback disabled and a
session active, `play` on a file the decoder cannot open does fail with
a decode error, but it does NOT leave the Session Registry as it was —
`stopAll` has already cleared it (and released its hardware resources)
before the decoder was even opened. -/
theorem c1_counterexample :
    (play exPlayingNoOverlap false true true "speakers" exSound none).1 =
      PlayResult.decodeError ∧
    exPlayingNoOverlap.playingSounds ≠ [] ∧
    exPlayingNoOverlap.maDevices ≠ [] ∧
    (play exPlayingNoOverlap false true true "speakers" exSound none).2.1.playingSounds = [] ∧
    (play exPlayingNoOverlap false true true "speakers" exSound none).2.1.maDevices = [] := by
  decide

/-- C1, amended: `play` on a source the decoder cannot open fails with
a decode error and acquires no resources. When overlapping playback is
enabled the whole state (registry, device collection, live resources)
is exactly as before the call and no sink event is emitted; when
overlapping is disabled, the only state change is that of the initial
`stopAll` (which clears the registry but leaves the device collection
unchanged). -/
theorem c1_theorem (st : AudioState) (dInit dStart : Bool) (rn : String)
    (sound : Sound) (pd : Option AudioDevice) :
    (st.allowOverlapping = true →
      play st false dInit dStart rn sound pd = (PlayResult.decodeError, st, [])) ∧
    (st.allowOverlapping = false →
      (play st false dInit dStart rn sound pd).1 = PlayResult.decodeError ∧
      (play st false dInit dStart rn sound pd).2.1 = stopAll st ∧
      (play st false dInit dStart rn sound pd).2.2 = [] ∧
      (stopAll st).devices = st.devices) := by
  constructor
  · intro hov
    simp [play, hov]
  · intro hov
    refine ⟨by simp [play, hov], by simp [play, hov], by simp [play, hov], (stopAll_proj st).1⟩

/-- Witness for C1 (amended): decode failure with overlapping enabled
leaves the state untouched; with overlapping disabled, the state after
the failed call is exactly the stopAll result. -/
theorem c1_witness :
    play exPlaying false true true "speakers" exSound none =
      (PlayResult.decodeError, exPlaying, []) ∧
    (play exPlayingNoOverlap false true true "speakers" exSound none).2.1 =
      stopAll exPlayingNoOverlap :=
  ⟨(c1_theorem exPlaying true true "speakers" exSound none).1 (by decide),
   (((c1_theorem exPlayingNoOverlap true true "speakers" exSound none).2 (by decide)).2).1⟩

/-- C5: the claim is right and the code is wrong. When the decoder
opens but `ma_device_init` fails, `play` reports the device error
without releasing the opened decoder (it stays live — a leak), even
though the adjacent `ma_device_start` failure path does release both
the device and the decoder as the claim describes. -/
theorem c5_theorem :
    (play exEmpty true false true "speakers" exSound none).1 = PlayResult.deviceError ∧
    (play exEmpty true false true "speakers" exSound none).2.1.decoders =
      [(100, { lengthInPcmFrames := 4, cursor := 0 })] ∧
    (play exEmpty true true false "speakers" exSound none).1 = PlayResult.deviceError ∧
    (play exEmpty true true false "speakers" exSound none).2.1.decoders = [] ∧
    (play exEmpty true true false "speakers" exSound none).2.1.maDevices = [] := by
  decide

/-- C2, counterexample: the real-time callback does invoke the
notification sink synchronously — a buffer that pushes the progress
accumulator past half the sample rate emits a progressed sink event
from inside `data_callback` itself, not through the deferred queue. -/
theorem c2_counterexample :
    (data_callback exPlaying 101 2).2 ≠ [] := by
  decide

/-- C2, amended: the events the callback emits synchronously are only
progress notifications (throttled); start and finish notifications
never originate synchronously from the callback — a finish is only
scheduled through the deferred queue. -/
theorem c2_theorem (st : AudioState) (h fc : Nat) :
    ((data_callback st h fc).2).all SinkEvent.isProgressed = true := by
  unfold data_callback
  cases hmd : findKey st.maDevices h with
  | none => rfl
  | some md =>
    dsimp only
    cases hud : md.userData with
    | none => rfl
    | some dh =>
      dsimp only
      cases hdec : findKey st.decoders dh with
      | none => rfl
      | some dec =>
        dsimp only
        by_cases hrf : 0 < min fc (dec.lengthInPcmFrames - dec.cursor)
        · simp only [if_pos hrf]
          exact onSoundProgressed_events _ _ _
        · simp only [if_neg hrf]
          rfl

/-- C3, counterexample: `stop` does not remove the registry entry
first — the recorded order of effects is device teardown, decoder
teardown, then removal of the registry entry last. -/
theorem c3_counterexample :
    (stop exPlaying 1).2.2 =
      [Action.uninitDevice 101, Action.uninitDecoder 100, Action.eraseEntry 101] ∧
    (stop exPlaying 1).2.2.head? ≠ some (Action.eraseEntry 101) := by
  decide

/-- C3, amended: `stop(id)` tears down the stream and decoder first and
removes the registry entry afterwards (not before); nevertheless, once
`stop` has returned, an already-deferred finish task for that stream
finds no registry entry and produces no finish notification, so no
double finish can occur after an explicit stop. -/
theorem c3_theorem (st : AudioState) (i h dh : Nat) (ps : PlayingSound)
    (md : MaDeviceState)
    (hfind : findById st i = some (h, ps))
    (hmd : findKey st.maDevices ps.rawDevice = some md)
    (hud : md.userData = some dh) :
    stopCancelsDeferredFinish st i h dh ps := by
  refine ⟨?_, ?_, ?_, ?_⟩
  · simp [stop, hfind, hmd, hud]
  · simp [stop, hfind, hmd, hud]
  · simp [stop, hfind, hmd, hud, findKey_eraseKey_self]
  · simp [stop, hfind, hmd, hud, onFinished, findKey_eraseKey_self]

/-- Witness for C3 (amended), at the concrete playing state. -/
theorem c3_witness : stopCancelsDeferredFinish exPlaying 1 101 100 exPlayingSound :=
  c3_theorem exPlaying 1 101 100 exPlayingSound exMaDevice
    (by decide) (by decide) (by decide)

/-- C6: `seek(id, positionMs)` computes the pending target frame as
positionMs / lengthInMs * length, stores only a pending seek request on
the session, and returns a snapshot whose readFrames equals that target
and whose derived readInMs matches positionMs within rounding. -/
theorem c6_theorem (st : AudioState) (i pos h : Nat) (ps : PlayingSound)
    (hfind : findById st i = some (h, ps))
    (hL : 0 < ps.length) (hM : 0 < ps.lengthInMs) (hML : ps.lengthInMs ≤ ps.length) :
    seekStoresPendingTarget st i pos h ps := by
  have hseek : seek st i pos =
      (some { ps with
          seekTo := pos * ps.length / ps.lengthInMs, shouldSeek := true,
          readFrames := pos * ps.length / ps.lengthInMs,
          readInMs := pos * ps.length / ps.lengthInMs * ps.lengthInMs / ps.length },
       { st with playingSounds := (updateKey st.playingSounds h
          (fun s => { s with seekTo := pos * ps.length / ps.lengthInMs,
                             shouldSeek := true })) }) := by
    simp [seek, hfind]
  exact ⟨_, _, hseek, rfl, rfl, rfl, rfl,
    derived_ms_le pos ps.length ps.lengthInMs hL,
    le_derived_ms_succ pos ps.length ps.lengthInMs hL hM hML,
    rfl, rfl, rfl, rfl, rfl⟩

/-- Witness for C6 at the spec's example: a 10,000 ms sound with
441,000 frames seeked to 2,500 ms yields seekTo = 110,250 and a
reported readInMs of exactly 2,500. -/
theorem c6_witness :
    seekStoresPendingTarget exSeekState 1 2500 101 exSeekSound ∧
    (seek exSeekState 1 2500).1.map PlayingSound.seekTo = some 110250 ∧
    (seek exSeekState 1 2500).1.map PlayingSound.readInMs = some 2500 :=
  ⟨c6_theorem exSeekState 1 2500 101 exSeekSound (by decide) (by decide) (by decide)
     (by decide),
   by decide, by decide⟩

/-- C7: pause followed by resume restores playback without altering
readFrames or readInMs; pause stops the hardware stream only if the
session is not already paused and returns the snapshot either way; an
unknown id yields no result. -/
theorem c7_theorem (st : AudioState) (i h : Nat) (ps : PlayingSound)
    (md : MaDeviceState)
    (hfind : findById st i = some (h, ps))
    (hmd : findKey st.maDevices ps.rawDevice = some md)
    (hp : ps.paused = false) :
    pauseResumeRoundtrip st i h ps md ∧
    (∀ st' j h' ps', findById st' j = some (h', ps') → ps'.paused = true →
      pause st' j = (some ps', st', [])) ∧
    (∀ st' j, findById st' j = none → pause st' j = (none, st', [])) := by
  have hid1 : ∀ x : PlayingSound, ({ x with paused := true } : PlayingSound).id = x.id :=
    fun _ => rfl
  have hid2 : ∀ x : PlayingSound, ({ x with paused := false } : PlayingSound).id = x.id :=
    fun _ => rfl
  have hf1 := find?_updateKey_of_id_eq st.playingSounds h
    (fun s => { s with paused := true }) i ps hid1 hfind
  refine ⟨?_, ?_, ?_⟩
  · refine ⟨{ st with
        maDevices := (updateKey st.maDevices ps.rawDevice
          (fun d => { d with running := false })),
        playingSounds := (updateKey st.playingSounds h
          (fun s => { s with paused := true })) },
      { st with
        maDevices := (updateKey (updateKey st.maDevices ps.rawDevice
            (fun d => { d with running := false })) ps.rawDevice
          (fun d => { d with running := true })),
        playingSounds := (updateKey (updateKey st.playingSounds h
            (fun s => { s with paused := true })) h
          (fun s => { s with paused := false })) },
      ?_, ?_, ?_, ?_, ?_, ?_, rfl, rfl⟩
    · simp [pause, hfind, hp]
    · exact hf1
    · have h1 := findKey_updateKey_self st.maDevices ps.rawDevice
        (fun d => { d with running := false })
      rw [hmd] at h1
      exact h1
    · simp [resume, findById, hf1]
    · exact find?_updateKey_of_id_eq _ h (fun s => { s with paused := false }) i
        ({ ps with paused := true }) hid2 hf1
    · have h1 := findKey_updateKey_self st.maDevices ps.rawDevice
        (fun d => { d with running := false })
      rw [hmd] at h1
      have h2 := findKey_updateKey_self
        (updateKey st.maDevices ps.rawDevice (fun d => { d with running := false }))
        ps.rawDevice (fun d => { d with running := true })
      rw [h1] at h2
      exact h2
  · intro st' j h' ps' hfind' hpaused
    simp [pause, hfind', hpaused]
  · intro st' j hfind'
    simp [pause, hfind']

/-- Witness for C7 at the concrete playing state, including the
unknown-id case. -/
theorem c7_witness :
    pauseResumeRoundtrip exPlaying 1 101 exPlayingSound exMaDevice ∧
    pause exPlaying 99 = (none, exPlaying, []) :=
  ⟨(c7_theorem exPlaying 1 101 exPlayingSound exMaDevice
      (by decide) (by decide) (by decide)).1,
   (c7_theorem exPlaying 1 101 exPlayingSound exMaDevice
      (by decide) (by decide) (by decide)).2.2 exPlaying 99 (by decide)⟩

/-- C10: constructing the engine from an enumeration in which no device
is marked default (in particular a failed enumeration, which yields the
empty device list) leaves the default-device pointer unset, and the
no-explicit-device branch of `play` then has no defined result (it
dereferences the unset pointer); when a default exists the branch is
well defined. -/
theorem c10_theorem (deviceList : List AudioDevice) (settings : List (String × Rat))
    (overlap : Bool) (st : AudioState) (rn : String) (sound : Sound) :
    ((∀ d ∈ deviceList, d.isDefault = false) →
      (Audio.init deviceList settings overlap).defaultOutputDevice = none) ∧
    (∀ names dn, getAudioDevices false true names dn = ([] : List AudioDevice) ∧
      getAudioDevices true false names dn = ([] : List AudioDevice)) ∧
    (st.defaultOutputDevice = none →
      (play st true true true rn sound none).1 = PlayResult.undefinedDefaultDevice) ∧
    (∀ nm d, st.allowOverlapping = true → st.defaultOutputDevice = some nm →
      findKey st.devices nm = some d →
      ∃ ps st', play st true true true rn sound none =
        (PlayResult.ok ps, st', [SinkEvent.played ps]) ∧ ps.device = d) := by
  refine ⟨fun hnd => audioInit_default_none deviceList settings overlap hnd,
    fun names dn => ⟨rfl, rfl⟩, fun hd => ?_, fun nm d hov hsome hfindd => ?_⟩
  · by_cases hov : st.allowOverlapping = true
    · simp [play, hov, hd]
    · have hov' : st.allowOverlapping = false := by
        cases hb : st.allowOverlapping <;> simp_all
      simp [play, hov', (stopAll_proj st).2.1, hd]
  · simp only [play, hov, if_pos, if_true]
    simp [hsome, hfindd]

/-- Witness for C10: after a failed enumeration the engine has no
default device, and playing without an explicit device from that state
runs into the undefined dereference. -/
theorem c10_witness :
    exNoDevices.defaultOutputDevice = none ∧
    (play exNoDevices true true true "speakers" exSound none).1 =
      PlayResult.undefinedDefaultDevice ∧
    (∃ ps st', play exPlaying true true true "speakers" exSound none =
      (PlayResult.ok ps, st', [SinkEvent.played ps]) ∧ ps.device = exDevice) :=
  ⟨(c10_theorem [] [] true exNoDevices "speakers" exSound).1 (by intro d hd; simp at hd),
   (c10_theorem [] [] true exNoDevices "speakers" exSound).2.2.1 (by decide),
   (c10_theorem [] [] true exPlaying "speakers" exSound).2.2.2 "speakers" exDevice
     (by decide) (by decide) (by decide)⟩

/-- C4, counterexample: the claimed invariant `readFrames ≤ length`
does not survive a repeat restart: at end of stream the decoder is
rewound to frame 0 but readFrames is not reset, so the next buffers
push it past the length. -/
theorem c4_counterexample :
    sessionBoundsInv exRepeatState ∧
    ¬ sessionBoundsInv (data_callback (data_callback exRepeatState 101 2).1 101 2).1 := by
  unfold sessionBoundsInv
  decide

/-! push_unique de-duplication facts and the end-of-stream reduction of
the callback. -/

theorem push_unique_idem (k : Nat) (q : List Nat) :
    push_unique k (push_unique k q) = push_unique k q := by
  unfold push_unique
  by_cases hm : k ∈ q
  · simp [hm]
  · simp [hm]

theorem push_unique_count (k : Nat) (q : List Nat) (hq : q.count k ≤ 1) :
    (push_unique k q).count k ≤ 1 := by
  unfold push_unique
  by_cases hm : k ∈ q
  · simpa [hm] using hq
  · simp [hm, List.count_append, List.count_eq_zero.mpr hm]

/-- Reduction of `data_callback` at end of stream (cursor at length, no
pending seek): no frames are produced, nothing is emitted, the registry
is untouched, and the outcome splits on the repeat flag. -/
theorem data_callback_eos (st : AudioState) (h fc dh : Nat) (md : MaDeviceState)
    (dec : MaDecoder) (ps : PlayingSound)
    (hmd : findKey st.maDevices h = some md)
    (hud : md.userData = some dh)
    (hdec : findKey st.decoders dh = some dec)
    (heos : dec.cursor = dec.lengthInPcmFrames)
    (hps : findKey st.playingSounds h = some ps)
    (hseek : ps.shouldSeek = false) :
    (data_callback st h fc).2 = [] ∧
    (data_callback st h fc).1.playingSounds = st.playingSounds ∧
    findKey (data_callback st h fc).1.maDevices h =
      some { md with masterVolumeFactor := getVolume st md.playbackName } ∧
    (ps.repeat' = true →
      (data_callback st h fc).1.queue = st.queue ∧
      findKey (data_callback st h fc).1.decoders dh = some { dec with cursor := 0 }) ∧
    (ps.repeat' = false →
      (data_callback st h fc).1.queue = push_unique h st.queue ∧
      findKey (data_callback st h fc).1.decoders dh = some dec) := by
  have hrf : min fc (dec.lengthInPcmFrames - dec.cursor) = 0 := by
    rw [heos, Nat.sub_self, Nat.min_zero]
  by_cases hr : ps.repeat' = true
  · refine ⟨?_, ?_, ?_, fun _ => ⟨?_, ?_⟩, fun hf => by simp [hf] at hr⟩ <;>
      simp [data_callback, hmd, hud, hdec, hps, hseek, getPlayingSound, hrf, hr,
        findKey_updateKey_self]
  · have hr' : ps.repeat' = false := by cases hb : ps.repeat' <;> simp_all
    refine ⟨?_, ?_, ?_, fun ht => by simp [ht] at hr', fun _ => ⟨?_, ?_⟩⟩ <;>
      simp [data_callback, hmd, hud, hdec, hps, hseek, getPlayingSound, hrf, hr',
        findKey_updateKey_self]

/-- C8: when the callback reads zero frames, a set repeat flag rewinds
the decoder to frame 0 with the session staying registered; otherwise a
finish task keyed by the stream handle is scheduled through the
de-duplicating queue, and a repeated end-of-stream callback cannot
enqueue a second pending finish task for the stream. -/
theorem c8_theorem (st : AudioState) (h fc dh : Nat) (md : MaDeviceState)
    (dec : MaDecoder) (ps : PlayingSound)
    (hmd : findKey st.maDevices h = some md)
    (hud : md.userData = some dh)
    (hdec : findKey st.decoders dh = some dec)
    (heos : dec.cursor = dec.lengthInPcmFrames)
    (hps : findKey st.playingSounds h = some ps)
    (hseek : ps.shouldSeek = false) :
    endOfStreamSpec st h fc dh dec ps := by
  obtain ⟨hemit, hpl, hmd', hrep, hnorep⟩ :=
    data_callback_eos st h fc dh md dec ps hmd hud hdec heos hps hseek
  refine ⟨fun ht => ⟨(hrep ht).2, hpl, (hrep ht).1⟩, fun hf => ?_,
    fun q => push_unique_idem h q, fun q => push_unique_count h q⟩
  obtain ⟨hq1, hdec1⟩ := hnorep hf
  have hps1 : findKey (data_callback st h fc).1.playingSounds h = some ps := by
    rw [hpl]; exact hps
  obtain ⟨_, _, _, _, hnorep2⟩ :=
    data_callback_eos (data_callback st h fc).1 h fc dh
      { md with masterVolumeFactor := getVolume st md.playbackName } dec ps
      hmd' hud hdec1 heos hps1 hseek
  refine ⟨hq1, hpl, ?_⟩
  rw [(hnorep2 hf).1, hq1, push_unique_idem]

/-- Witness for C8 at the two concrete end-of-stream states: one with
the repeat flag set, one without. -/
theorem c8_witness :
    endOfStreamSpec exRepeatState 101 2 100
      { lengthInPcmFrames := 4, cursor := 4 } exRepeatSound ∧
    endOfStreamSpec exEosState 101 2 100
      { lengthInPcmFrames := 4, cursor := 4 } exEosSound :=
  ⟨c8_theorem exRepeatState 101 2 100 exMaDevice
      { lengthInPcmFrames := 4, cursor := 4 } exRepeatSound
      (by decide) (by decide) (by decide) (by decide) (by decide) (by decide),
   c8_theorem exEosState 101 2 100 exMaDevice
      { lengthInPcmFrames := 4, cursor := 4 } exEosSound
      (by decide) (by decide) (by decide) (by decide) (by decide) (by decide)⟩

/-- C4, amended: 0 ≤ readFrames always holds (readFrames is a count);
`readFrames ≤ length` is preserved by the callback for a non-repeating
session, with no pending seek, whose read position is in step with its
decoder; and readInMs equals readFrames / length * lengthInMs exactly
at the throttled report points, staying stale (unchanged) between
them. After a repeat restart the synchronisation hypothesis fails and
readFrames can exceed length (see the counterexample). -/
theorem c4_theorem (st : AudioState) (h fc dh : Nat) (md : MaDeviceState)
    (dec : MaDecoder) (ps : PlayingSound)
    (hmd : findKey st.maDevices h = some md)
    (hud : md.userData = some dh)
    (hdec : findKey st.decoders dh = some dec)
    (hps : findKey st.playingSounds h = some ps)
    (hseek : ps.shouldSeek = false)
    (hrep : ps.repeat' = false)
    (hsync : ps.readFrames = dec.cursor)
    (hlen : ps.length = dec.lengthInPcmFrames)
    (hcur : dec.cursor ≤ dec.lengthInPcmFrames) :
    callbackKeepsBounds st h fc dh dec ps := by
  have hminle : min fc (dec.lengthInPcmFrames - dec.cursor) ≤
      dec.lengthInPcmFrames - dec.cursor := Nat.min_le_right _ _
  by_cases h0 : 0 < min fc (dec.lengthInPcmFrames - dec.cursor)
  · have hne : ¬ (min fc (dec.lengthInPcmFrames - dec.cursor) = 0) := by omega
    by_cases hbuf : ps.sampleRate / 2 <
        ps.buffer + min fc (dec.lengthInPcmFrames - dec.cursor)
    · refine ⟨{ ps with
          readFrames := ps.readFrames + min fc (dec.lengthInPcmFrames - dec.cursor),
          readInMs := (ps.readFrames + min fc (dec.lengthInPcmFrames - dec.cursor)) *
            ps.lengthInMs / ps.length,
          buffer := 0 }, ?_, ?_, ?_, ?_, Or.inl rfl⟩
      · simp [data_callback, hmd, hud, hdec, hps, hseek, getPlayingSound, h0, hne,
          onSoundProgressed, hbuf, findKey_updateKey_self]
      · simp [hsync]
      · dsimp only
        omega
      · simp [data_callback, hmd, hud, hdec, hps, hseek, getPlayingSound, h0, hne,
          onSoundProgressed, hbuf, findKey_updateKey_self]
    · refine ⟨{ ps with
          readFrames := ps.readFrames + min fc (dec.lengthInPcmFrames - dec.cursor),
          buffer := ps.buffer + min fc (dec.lengthInPcmFrames - dec.cursor) },
          ?_, ?_, ?_, ?_, Or.inr rfl⟩
      · simp [data_callback, hmd, hud, hdec, hps, hseek, getPlayingSound, h0, hne,
          onSoundProgressed, hbuf, findKey_updateKey_self]
      · simp [hsync]
      · dsimp only
        omega
      · simp [data_callback, hmd, hud, hdec, hps, hseek, getPlayingSound, h0, hne,
          onSoundProgressed, hbuf, findKey_updateKey_self]
  · have h0' : min fc (dec.lengthInPcmFrames - dec.cursor) = 0 := by omega
    refine ⟨ps, ?_, ?_, ?_, ?_, Or.inr rfl⟩
    · simp [data_callback, hmd, hud, hdec, hps, hseek, getPlayingSound, h0', hrep,
        findKey_updateKey_self]
    · omega
    · omega
    · simp [data_callback, hmd, hud, hdec, hps, hseek, getPlayingSound, h0', hrep,
        findKey_updateKey_self]

/-- Witness for C4 (amended) at the freshly playing concrete state,
where the first buffer crosses the throttle threshold. -/
theorem c4_witness :
    callbackKeepsBounds exPlaying 101 2 100
      { lengthInPcmFrames := 4, cursor := 0 } exPlayingSound :=
  c4_theorem exPlaying 101 2 100 exMaDevice
    { lengthInPcmFrames := 4, cursor := 0 } exPlayingSound
    (by decide) (by decide) (by decide) (by decide) (by decide)
    (by decide) (by decide) (by decide) (by decide)

end Soundux
